import Mathlib

/-!
Shallow embedding of the thermal-backend service (src/app.py).

The core is `create_earth_depth_plot` (app.py lines 16-114): it seeds the
process-wide NumPy RNG with 678, samples 800 points uniformly over the domain
x ∈ [1,6], z ∈ [0,80], assigns each point a scalar value through an ordered
chain of masked writes (hard-rock / deep zone split on a noisy boundary curve,
two probabilistic pockets, a deepest-layer override, global Gaussian noise),
interpolates the scattered values onto an 80×80 grid with `griddata` and clips
the grid to [55, 1000].  The Flask handler `generate_pdf` (lines 118-157)
parses the request JSON (returning a 400 error on failure, without running the
pipeline), runs the pipeline and encodes the figure as a PDF attachment,
returning a 500 structured error on any pipeline failure.

Modelling choices:
* Machine floats become ℚ.  The float sine and the float value of π are
  parameters of the environment (`Env.sinf`, `Env.piq`): no claim depends on
  their actual values, only on the shape of the expressions they feed.
* NumPy's seeded global Mersenne-Twister stream is modelled by two
  deterministic draw streams, one for the uniform-[0,1) primitives
  (`np.random.uniform`, `np.random.rand`) and one for the standard-normal
  primitive (`np.random.randn`).  Each stream is a function of the draw
  position; positions are threaded explicitly in the exact order the source
  consumes draws.  A generator `ℕ → ℕ → ℚ` maps a seed to a stream, and the
  process-global RNG state (seed last set, number of draws consumed) is passed
  explicitly through `runPipeline`, mirroring `np.random.seed` / draw calls.
* `values[mask] = base + scale * np.random.rand(np.sum(mask))` draws exactly
  `count(mask)` fresh uniforms and writes them to the masked positions in
  index order; `maskedAssign` reproduces this with the rank of each index in
  the mask.
* `scipy.interpolate.griddata(method='linear')` is library code outside the
  repository; only its boundary behaviour matters to the claims.  Its
  degenerate-input behaviour is modelled from the spec (§4.3): fewer than
  three distinct points, or an entirely collinear point set, cannot be
  triangulated and fails with `DegenerateInputError`; otherwise the
  interpolant is an arbitrary parameter (`InterpCore`) producing an optional
  (possibly undefined, i.e. outside-hull) value per queried coordinate.
-/

namespace App

/-- Environment of one generation run: the seeded uniform-[0,1) draw stream
`u`, the seeded standard-normal draw stream `g`, the float sine `sinf` and the
float value of π.  (app.py line 23: `np.random.seed(678)` fixes `u` and `g`.) -/
structure Env where
  u : ℕ → ℚ
  g : ℕ → ℚ
  sinf : ℚ → ℚ
  piq : ℚ

/-- app.py line 26: `n_points = 800`. -/
def nPoints : ℕ := 800

/-- app.py line 27: `grid_resolution = 80`. -/
def gridResolution : ℕ := 80

/-- `np.clip(v, lo, hi)` on scalars. -/
def clipQ (lo hi v : ℚ) : ℚ := min hi (max lo v)

/-- app.py line 34: `points_x = np.random.uniform(1, 6, 800)`; NumPy draws
`low + (high-low)·u`.  Uniform draw positions 0..799. -/
def points_x (E : Env) (i : ℕ) : ℚ := 1 + (6 - 1) * E.u i

/-- app.py line 35: `points_z = np.random.uniform(0, 80, 800)`.  Uniform draw
positions 800..1599. -/
def points_z (E : Env) (i : ℕ) : ℚ := 0 + (80 - 0) * E.u (nPoints + i)

/-- app.py lines 39-40: the per-sample boundary curve
`clip(40 + 15·sin(x·π/2.5) + 10·randn·0.5, 25, 50)`.  The `randn(800)` call
consumes normal draw positions 0..799. -/
def boundary_z_upper (E : Env) (i : ℕ) : ℚ :=
  clipQ 25 50 (40 + 15 * E.sinf (points_x E i * E.piq / 2.5) + 10 * E.g i * 0.5)

/-- app.py line 41: `is_hard_rock_zone = points_z < boundary_z_upper`. -/
def is_hard_rock_zone (E : Env) (i : ℕ) : Bool :=
  decide (points_z E i < boundary_z_upper E i)

/-- app.py line 43: `is_deep_zone = points_z >= boundary_z_upper`. -/
def is_deep_zone (E : Env) (i : ℕ) : Bool :=
  decide (boundary_z_upper E i ≤ points_z E i)

/-- Number of indices below `n` satisfying the mask (`np.sum(mask)` when
`n = nPoints`; the rank of index `n` inside the mask otherwise). -/
def maskCount (m : ℕ → Bool) (n : ℕ) : ℕ := (List.range n).countP m

/-- NumPy masked write `values[mask] = f(rank)`: the k-th True position of the
mask receives the k-th freshly drawn value. -/
def maskedAssign (m : ℕ → Bool) (old : ℕ → ℚ) (f : ℕ → ℚ) (i : ℕ) : ℚ :=
  if m i then f (maskCount m i) else old i

/-- First uniform draw position available after sampling the 1600 point
coordinates. -/
def off_hard : ℕ := 2 * nPoints

def c_hard (E : Env) : ℕ := maskCount (is_hard_rock_zone E) nPoints

/-- app.py line 42: `values[is_hard_rock_zone] = 800 + 350*rand(count)`,
overwriting the zero initialisation of line 37. -/
def values1 (E : Env) : ℕ → ℚ :=
  maskedAssign (is_hard_rock_zone E) (fun _ => 0)
    (fun k => 800 + 350 * E.u (off_hard + k))

def off_deep (E : Env) : ℕ := off_hard + c_hard E

def c_deep (E : Env) : ℕ := maskCount (is_deep_zone E) nPoints

/-- app.py line 44: `values[is_deep_zone] = 450 + 250*rand(count)`. -/
def values2 (E : Env) : ℕ → ℚ :=
  maskedAssign (is_deep_zone E) (values1 E)
    (fun k => 450 + 250 * E.u (off_deep E + k))

def off_p1ret (E : Env) : ℕ := off_deep E + c_deep E

/-- app.py lines 45-46: pocket-1 mask, including the retention draw
`rand(n_points) > 0.4` (one uniform per index, position `off_p1ret + i`). -/
def is_pocket_1 (E : Env) (i : ℕ) : Bool :=
  is_deep_zone E i && decide (points_x E i > 1.5) && decide (points_x E i < 3.5)
    && decide (points_z E i > 50) && decide (points_z E i < 70)
    && decide (E.u (off_p1ret E + i) > 0.4)

def off_p1val (E : Env) : ℕ := off_p1ret E + nPoints

def c_p1 (E : Env) : ℕ := maskCount (is_pocket_1 E) nPoints

/-- app.py line 47: `values[is_pocket_1] = 50 + 70*rand(count)`. -/
def values3 (E : Env) : ℕ → ℚ :=
  maskedAssign (is_pocket_1 E) (values2 E)
    (fun k => 50 + 70 * E.u (off_p1val E + k))

def off_p2ret (E : Env) : ℕ := off_p1val E + c_p1 E

/-- app.py lines 48-49: pocket-2 mask with its retention draw. -/
def is_pocket_2 (E : Env) (i : ℕ) : Bool :=
  is_deep_zone E i && decide (points_x E i > 4.5) && decide (points_x E i < 6.0)
    && decide (points_z E i > 55) && decide (points_z E i < 75)
    && decide (E.u (off_p2ret E + i) > 0.4)

def off_p2val (E : Env) : ℕ := off_p2ret E + nPoints

def c_p2 (E : Env) : ℕ := maskCount (is_pocket_2 E) nPoints

/-- app.py line 50: `values[is_pocket_2] = 100 + 100*rand(count)`. -/
def values4 (E : Env) : ℕ → ℚ :=
  maskedAssign (is_pocket_2 E) (values3 E)
    (fun k => 100 + 100 * E.u (off_p2val E + k))

/-- app.py line 51: `is_deepest_layer = points_z >= 75`. -/
def is_deepest_layer (E : Env) (i : ℕ) : Bool :=
  decide (points_z E i ≥ 75)

def off_deepest (E : Env) : ℕ := off_p2val E + c_p2 E

def c_deepest (E : Env) : ℕ := maskCount (is_deepest_layer E) nPoints

/-- app.py line 52: `values[is_deepest_layer] = 600 + 300*rand(count)` — the
last pre-noise assignment. -/
def values5 (E : Env) : ℕ → ℚ :=
  maskedAssign (is_deepest_layer E) (values4 E)
    (fun k => 600 + 300 * E.u (off_deepest E + k))

/-- app.py line 53: `values += 100 * np.random.randn(n_points)`; normal draw
positions 800..1599. -/
def values6 (E : Env) (i : ℕ) : ℚ := values5 E i + 100 * E.g (nPoints + i)

/-- Total number of uniform draws one run consumes. -/
def totalUniformDraws (E : Env) : ℕ := off_deepest E + c_deepest E

/-- `np.linspace(a, b, n)[i] = a + (b-a)·i/(n-1)`. -/
def linspaceQ (a b : ℚ) (n i : ℕ) : ℚ := a + (b - a) * (i : ℚ) / ((n - 1 : ℕ) : ℚ)

/-- app.py line 31: `depth_grid = np.linspace(0, 80, 80)` (row coordinate). -/
def depth_grid (r : ℕ) : ℚ := linspaceQ 0 80 gridResolution r

/-- app.py line 32: `surface_x_grid = np.linspace(1, 6, 80)` (column
coordinate). -/
def surface_x_grid (c : ℕ) : ℚ := linspaceQ 1 6 gridResolution c

/-- app.py line 36: `points = np.vstack((points_x, points_z)).T`. -/
def pointsList (E : Env) : List (ℚ × ℚ) :=
  (List.range nPoints).map (fun i => (points_x E i, points_z E i))

/-- The final per-sample value sequence handed to `griddata`. -/
def valuesList (E : Env) : List ℚ := (List.range nPoints).map (values6 E)

def samplesXList (E : Env) : List ℚ := (List.range nPoints).map (points_x E)

def samplesZList (E : Env) : List ℚ := (List.range nPoints).map (points_z E)

inductive GriddataError where
  | DegenerateInputError
deriving DecidableEq

/-- A scattered-data interpolation kernel: points, values, then a queried
(x, z) coordinate; `none` means the coordinate is outside the convex hull and
the node stays undefined (NaN in the source). -/
def InterpCore : Type :=
  List (ℚ × ℚ) → List ℚ → ℚ → ℚ → Option ℚ

def collinear3 (p q r : ℚ × ℚ) : Bool :=
  decide ((q.1 - p.1) * (r.2 - p.2) - (q.2 - p.2) * (r.1 - p.1) = 0)

/-- Whether every point of the list lies on one line (this subsumes point sets
with fewer than three distinct points). -/
def allCollinear : List (ℚ × ℚ) → Bool
  | [] => true
  | p :: rest =>
    match rest.find? (fun q => q != p) with
    | none => true
    | some q => rest.all (fun r => collinear3 p q r)

/-- Modelled from the spec: `scipy.interpolate.griddata(method='linear')`
(app.py line 55) is library code outside the repository; per spec §4.3 it
triangulates the sample set and fails explicitly with a
`DegenerateInputError` when the samples cannot be triangulated (fewer than
three distinct points, or all points collinear); otherwise it evaluates the
piecewise-linear interpolant, here an arbitrary kernel `core`. -/
def griddata (core : InterpCore) (pts : List (ℚ × ℚ)) (vals : List ℚ) :
    Except GriddataError (ℚ → ℚ → Option ℚ) :=
  if allCollinear pts then .error .DegenerateInputError else .ok (core pts vals)

/-- app.py lines 55-56: the interpolated-and-clipped value at grid node
(row `r`, column `c`): `np.clip(data_interpolated, 55, 1000)`, where clipping
an undefined (NaN) node leaves it undefined. -/
def data_interpolated (E : Env) (core : InterpCore) (r c : ℕ) : Option ℚ :=
  (core (pointsList E) (valuesList E) (surface_x_grid c) (depth_grid r)).map
    (clipQ 55 1000)

/-- Result of one `create_earth_depth_plot` run: the sample coordinate
sequences, the final value sequence, and the interpolated grid (or the
interpolation failure that aborts the run). -/
structure Output where
  samplesX : List ℚ
  samplesZ : List ℚ
  sampleValues : List ℚ
  grid : Except GriddataError (ℕ → ℕ → Option ℚ)

/-- app.py lines 16-56 (the data pipeline of `create_earth_depth_plot`),
given the seeded environment and the interpolation kernel. -/
def create_earth_depth_plot (E : Env) (core : InterpCore) : Output :=
  { samplesX := samplesXList E
    samplesZ := samplesZList E
    sampleValues := valuesList E
    grid := (griddata core (pointsList E) (valuesList E)).map
      (fun f => fun r c => (f (surface_x_grid c) (depth_grid r)).map (clipQ 55 1000)) }

/-- The process-wide NumPy RNG state: the seed last installed and the number
of draws consumed since. -/
structure NPGlobal where
  seed : ℕ
  pos : ℕ
deriving DecidableEq

/-- One pipeline invocation as the source performs it: `np.random.seed(678)`
(app.py line 23) overwrites the ambient global RNG state, so every draw comes
from the seed-678 streams `gu 678` / `gg 678` regardless of the state the
process was in; the final global state records seed 678 and all draws
consumed (1600 normal draws plus the uniform draws). -/
def runPipeline (gu gg : ℕ → ℕ → ℚ) (sinf : ℚ → ℚ) (piq : ℚ) (core : InterpCore)
    (st : NPGlobal) : Output × NPGlobal :=
  let E : Env := ⟨gu 678, gg 678, sinf, piq⟩
  (create_earth_depth_plot E core, ⟨678, totalUniformDraws E + 2 * nPoints⟩)

inductive RespBody where
  | jsonObj (fields : List (String × String))
  | fileAttach (mimetype download : String) (content : String)
  | plainText (s : String)
deriving DecidableEq

structure Response where
  status : ℕ
  body : RespBody
deriving DecidableEq

/-- app.py lines 118-157, the `/generate-pdf` handler.  `parsed` is the
outcome of `request.json` (the parsed body of type `J`, or the parse-failure
message).  On parse failure the handler answers 400 without touching the
pipeline; otherwise it runs the pipeline, encodes the figure
(`savefig`, which may itself fail), and answers with the PDF attachment or a
500 structured error.  The Bool records whether `create_earth_depth_plot` was
invoked; the `NPGlobal` is the process RNG state after the request. -/
def generate_pdf {J : Type} (gu gg : ℕ → ℕ → ℚ) (sinf : ℚ → ℚ) (piq : ℚ)
    (core : InterpCore) (savefig : Output → Except String String)
    (st : NPGlobal) (parsed : Except String J) :
    Response × Bool × NPGlobal :=
  match parsed with
  | .error msg =>
    (⟨400, .jsonObj [("error", "Invalid JSON data"), ("message", msg)]⟩, false, st)
  | .ok _ =>
    let p := runPipeline gu gg sinf piq core st
    match p.1.grid with
    | .error _ =>
      (⟨500, .jsonObj [("error", "Failed to generate plot"),
        ("message", "DegenerateInputError")]⟩, true, p.2)
    | .ok _ =>
      match savefig p.1 with
      | .ok pdfBytes =>
        (⟨200, .fileAttach "application/pdf" "earth_depth_profile.pdf" pdfBytes⟩,
          true, p.2)
      | .error msg =>
        (⟨500, .jsonObj [("error", "Failed to generate plot"), ("message", msg)]⟩,
          true, p.2)

/-- Whether a run's interpolation step succeeded. -/
def gridOk (o : Output) : Bool :=
  match o.grid with
  | .ok _ => true
  | .error _ => false

/-- Modelled from the spec: the repository's second, near-duplicate entry
point (the image-generation endpoint) is not under src/; per spec §6 it takes
an optional JSON body that the core ignores, and answers either a JSON object
with one base64-encoded raster image field, or a 500 structured error on
pipeline failure.  `encodePng` is its base64-raster encoder. -/
def generate_image {J : Type} (gu gg : ℕ → ℕ → ℚ) (sinf : ℚ → ℚ) (piq : ℚ)
    (core : InterpCore) (encodePng : Output → Except String String)
    (st : NPGlobal) (body : Option J) : Response × NPGlobal :=
  let p := runPipeline gu gg sinf piq core st
  match p.1.grid with
  | .error _ => (⟨500, .jsonObj [("error", "Failed to generate plot")]⟩, p.2)
  | .ok _ =>
    match encodePng p.1 with
    | .ok b64 => (⟨200, .jsonObj [("image", b64)]⟩, p.2)
    | .error _ => (⟨500, .jsonObj [("error", "Failed to generate plot")]⟩, p.2)

/-! Concrete instantiations used by the witnesses. -/

/-- A concrete uniform stream: draw 800 (the z-coordinate of sample 0) is
19/20, draw 801 (the z-coordinate of sample 1) is 1/4, all other draws 1/2.
Sample 0 then has z = 76 (deepest layer) and sample 1 has z = 20 (hard-rock
zone, its boundary value being 40). -/
def uA : ℕ → ℚ := fun n => if n = 800 then 19/20 else if n = 801 then 1/4 else 1/2

def envA : Env := ⟨uA, fun _ => 0, fun _ => 0, 3⟩

/-- Every draw of `uA` lies in [0, 1), as NumPy's uniform primitives
guarantee. -/
theorem envA_draws_unit : ∀ k, 0 ≤ envA.u k ∧ envA.u k < 1 := by
  intro k
  show 0 ≤ uA k ∧ uA k < 1
  unfold uA
  split
  · norm_num
  · split <;> norm_num

/-- A concrete uniform stream whose point cloud is not collinear: samples 0,
1, 2 are (1,0), (7/2,0), (1,40). -/
def uB : ℕ → ℚ := fun n => if n = 1 then 1/2 else if n = 802 then 1/2 else 0

def genUB : ℕ → ℕ → ℚ := fun _ => uB

/-- A constant uniform stream: all 800 samples coincide at (7/2, 40), so the
point cloud is degenerate. -/
def uC : ℕ → ℚ := fun _ => 1/2

def genUC : ℕ → ℕ → ℚ := fun _ => uC

def genG0 : ℕ → ℕ → ℚ := fun _ _ => 0

def sin0 : ℚ → ℚ := fun _ => 0

def envB : Env := ⟨genUB 678, genG0 678, sin0, 3⟩

def envC : Env := ⟨genUC 678, genG0 678, sin0, 3⟩

/-- An interpolation kernel that answers 2000 everywhere (so the pre-clip
value exceeds the display range). -/
def coreConst : InterpCore := fun _ _ _ _ => some 2000

def savefigOk : Output → Except String String := fun _ => .ok "PDFBYTES"

def encodeB64Ok : Output → Except String String := fun _ => .ok "iVBORb64"

/-- A point is always collinear with any two points including itself. -/
theorem collinear3_self (p q : ℚ × ℚ) : collinear3 p q q = true := by
  simp only [collinear3, decide_eq_true_eq]
  ring

/-- Any two-point sample set is collinear (hence degenerate). -/
theorem allCollinear_pair (p q : ℚ × ℚ) : allCollinear [p, q] = true := by
  by_cases h : q = p
  · subst h
    have hfind : List.find? (fun r => r != q) [q] = none := by
      rw [List.find?_eq_none]
      intro x hx
      simp only [List.mem_singleton] at hx
      subst hx
      simp
    simp [allCollinear, hfind]
  · have hfind : List.find? (fun r => r != p) [q] = some q :=
      List.find?_cons_of_pos _ (by simpa [bne_iff_ne] using h)
    simp [allCollinear, hfind, collinear3_self]

/-- A sample set whose points all coincide is collinear (hence degenerate). -/
theorem allCollinear_of_all_eq (p0 : ℚ × ℚ) (l : List (ℚ × ℚ))
    (hl : ∀ q ∈ l, q = p0) : allCollinear l = true := by
  cases l with
  | nil => rfl
  | cons p rest =>
    have hfind : rest.find? (fun q => q != p) = none := by
      rw [List.find?_eq_none]
      intro x hx
      have hx1 : x = p0 := hl x (List.mem_cons_of_mem _ hx)
      have hp : p = p0 := hl p (List.mem_cons_self _ _)
      simp [hx1, hp]
    simp [allCollinear, hfind]

/-- Under the constant uniform stream `uC` the 800 samples coincide, so the
point cloud is degenerate. -/
theorem pointsC_collinear : allCollinear (pointsList envC) = true := by
  apply allCollinear_of_all_eq (points_x envC 0, points_z envC 0)
  intro q hq
  simp only [pointsList, List.mem_map, List.mem_range] at hq
  obtain ⟨i, _, rfl⟩ := hq
  rfl

set_option maxRecDepth 100000 in
/-- Under the stream `uB` the first three samples are (1,0), (7/2,0), (1,40),
which are not collinear, so the point cloud can be triangulated. -/
theorem pointsB_not_collinear : allCollinear (pointsList envB) = false := by
  have hdec : pointsList envB
      = (points_x envB 0, points_z envB 0) :: (points_x envB 1, points_z envB 1)
        :: (points_x envB 2, points_z envB 2)
        :: (List.range' 3 797).map (fun i => (points_x envB i, points_z envB i)) := by
    unfold pointsList
    rw [show List.range nPoints = 0 :: 1 :: 2 :: List.range' 3 797 from by decide]
    simp
  have hx01 : ((points_x envB 1, points_z envB 1)
      != (points_x envB 0, points_z envB 0)) = true := by
    simp only [bne_iff_ne, ne_eq]
    intro h
    have hfst := congrArg Prod.fst h
    simp only [points_x, envB, genUB, uB] at hfst
    norm_num at hfst
  have hfind : List.find? (fun q => q != (points_x envB 0, points_z envB 0))
      ((points_x envB 1, points_z envB 1) :: (points_x envB 2, points_z envB 2)
        :: (List.range' 3 797).map (fun i => (points_x envB i, points_z envB i)))
      = some (points_x envB 1, points_z envB 1) :=
    List.find?_cons_of_pos _ hx01
  have hcol : collinear3 (points_x envB 0, points_z envB 0)
      (points_x envB 1, points_z envB 1) (points_x envB 2, points_z envB 2)
      = false := by
    simp only [collinear3, decide_eq_false_iff_not]
    simp only [points_x, points_z, envB, genUB, genG0, uB, nPoints]
    norm_num
  rw [hdec]
  simp only [allCollinear]
  rw [hfind]
  show ((points_x envB 1, points_z envB 1) :: (points_x envB 2, points_z envB 2)
      :: (List.range' 3 797).map (fun i => (points_x envB i, points_z envB i))).all
      (fun r => collinear3 (points_x envB 0, points_z envB 0)
        (points_x envB 1, points_z envB 1) r) = false
  rw [List.all_cons, List.all_cons, hcol]
  simp

/-- With the non-degenerate stream `uB` the pipeline's interpolation step
succeeds. -/
theorem gridOkB : gridOk (runPipeline genUB genG0 sin0 3 coreConst ⟨0, 0⟩).1 = true := by
  show gridOk (create_earth_depth_plot envB coreConst) = true
  simp [create_earth_depth_plot, griddata, pointsB_not_collinear, gridOk, Except.map]

/-- With the degenerate constant stream `uC` the pipeline's interpolation step
fails with the degenerate-input error. -/
theorem gridErrC : (runPipeline genUC genG0 sin0 3 coreConst ⟨0, 0⟩).1.grid
    = .error .DegenerateInputError := by
  show (create_earth_depth_plot envC coreConst).grid = .error .DegenerateInputError
  simp [create_earth_depth_plot, griddata, pointsC_collinear, Except.map]

/-! The claims. -/

/-- Claim C1: determinism.  The source re-seeds the RNG with the fixed seed
678 at the start of every run (app.py line 23), so whatever the ambient RNG
state was, two independent pipeline runs (with the same deterministic
generator, libm and interpolation routine) produce bit-identical sample
sequences, value sequences and interpolated grids. -/
theorem c1_determinism (gu gg : ℕ → ℕ → ℚ) (sinf : ℚ → ℚ) (piq : ℚ)
    (core : InterpCore) (st₁ st₂ : NPGlobal) :
    (runPipeline gu gg sinf piq core st₁).1.samplesX
      = (runPipeline gu gg sinf piq core st₂).1.samplesX ∧
    (runPipeline gu gg sinf piq core st₁).1.samplesZ
      = (runPipeline gu gg sinf piq core st₂).1.samplesZ ∧
    (runPipeline gu gg sinf piq core st₁).1.sampleValues
      = (runPipeline gu gg sinf piq core st₂).1.sampleValues ∧
    (runPipeline gu gg sinf piq core st₁).1.grid
      = (runPipeline gu gg sinf piq core st₂).1.grid :=
  ⟨rfl, rfl, rfl, rfl⟩

/-- Claim C2: range invariant.  After the interpolation-and-clipping step
(app.py lines 55-56) every defined grid node lies in [55, 1000], and a node
is undefined after clipping exactly when the raw interpolation left it
undefined (NaN clips to NaN). -/
theorem c2_range_invariant (E : Env) (core : InterpCore) (r c : ℕ) :
    (∀ v, data_interpolated E core r c = some v → 55 ≤ v ∧ v ≤ 1000) ∧
    (data_interpolated E core r c = none ↔
      core (pointsList E) (valuesList E) (surface_x_grid c) (depth_grid r) = none) := by
  constructor
  · intro v hv
    unfold data_interpolated at hv
    cases hcore : core (pointsList E) (valuesList E) (surface_x_grid c) (depth_grid r) with
    | none => rw [hcore] at hv; cases hv
    | some w =>
      rw [hcore] at hv
      simp only [Option.map_some', Option.some.injEq] at hv
      subst hv
      unfold clipQ
      refine ⟨le_min (by norm_num) (le_max_left _ _), min_le_left _ _⟩
  · unfold data_interpolated
    simp [Option.map_eq_none']

set_option maxRecDepth 8000 in
/-- Witness for C2 at a concrete kernel answering 2000: the clipped node is
defined and equals 1000, inside [55, 1000]. -/
theorem c2_range_invariant_witness :
    data_interpolated envA coreConst 0 0 = some 1000 ∧
    55 ≤ (1000 : ℚ) ∧ (1000 : ℚ) ≤ 1000 :=
  ⟨by decide, (c2_range_invariant envA coreConst 0 0).1 1000 (by decide)⟩

/-- Claim C6 (evidence of the code bug): the pipeline operates on the
process-wide global RNG, not an independently scoped instance.  Starting from
a process state with seed 0 and no draws consumed, one invocation leaves the
ambient global state re-seeded to 678 with all the run's draws consumed: the
call mutates state it does not own. -/
theorem c6_global_rng_mutated (gu gg : ℕ → ℕ → ℚ) (sinf : ℚ → ℚ) (piq : ℚ)
    (core : InterpCore) :
    (runPipeline gu gg sinf piq core ⟨0, 0⟩).2.seed = 678 ∧
    (runPipeline gu gg sinf piq core ⟨0, 0⟩).2.pos
      = totalUniformDraws ⟨gu 678, gg 678, sinf, piq⟩ + 2 * nPoints ∧
    (⟨0, 0⟩ : NPGlobal).seed = 0 :=
  ⟨rfl, rfl, rfl⟩

/-- Claim C8: a POST whose body fails JSON parsing is answered with a 400
structured error (app.py lines 123-130), the pipeline is never invoked
(the Bool component is false), and the process RNG state is untouched. -/
theorem c8_invalid_json {J : Type} (gu gg : ℕ → ℕ → ℚ) (sinf : ℚ → ℚ) (piq : ℚ)
    (core : InterpCore) (savefig : Output → Except String String)
    (st : NPGlobal) (msg : String) :
    generate_pdf gu gg sinf piq core savefig st (.error msg : Except String J) =
      (⟨400, .jsonObj [("error", "Invalid JSON data"), ("message", msg)]⟩, false, st) :=
  rfl

/-- Claim C9: request-body noninterference.  `request.json` is parsed and then
never used (app.py lines 126-128), so for any two accepted bodies — even of
different types — the handler's full result (response, pipeline invocation,
final RNG state, hence grid and document bytes) is identical. -/
theorem c9_body_noninterference {J₁ J₂ : Type} (gu gg : ℕ → ℕ → ℚ)
    (sinf : ℚ → ℚ) (piq : ℚ) (core : InterpCore)
    (savefig : Output → Except String String) (st : NPGlobal)
    (j₁ : J₁) (j₂ : J₂) :
    generate_pdf gu gg sinf piq core savefig st (.ok j₁)
      = generate_pdf gu gg sinf piq core savefig st (.ok j₂) := by
  simp only [generate_pdf]

/-- Claim C3: deepest-layer override precedence.  Whatever its x coordinate
and whatever zone or pocket wrote to it earlier, a sample with z ≥ 75 leaves
step 4 (app.py lines 51-52) with value 600 + 300·U for the fresh uniform U of
its rank in the deepest-layer mask; since U ∈ [0,1), the raw pre-global-noise
base value lies in [600, 900). -/
theorem c3_deepest_layer_override (E : Env) (i : ℕ)
    (hu : ∀ k, 0 ≤ E.u k ∧ E.u k < 1) (hz : 75 ≤ points_z E i) :
    values5 E i
      = 600 + 300 * E.u (off_deepest E + maskCount (is_deepest_layer E) i) ∧
    600 ≤ values5 E i ∧ values5 E i < 900 := by
  have hd : is_deepest_layer E i = true := by
    simp only [is_deepest_layer, ge_iff_le, decide_eq_true_eq]
    exact hz
  have heq : values5 E i
      = 600 + 300 * E.u (off_deepest E + maskCount (is_deepest_layer E) i) := by
    simp [values5, maskedAssign, hd]
  obtain ⟨h0, h1⟩ := hu (off_deepest E + maskCount (is_deepest_layer E) i)
  refine ⟨heq, ?_, ?_⟩
  · rw [heq]; nlinarith
  · rw [heq]; nlinarith

/-- Witness for C3: in the concrete environment `envA`, sample 0 has
z = 80·(19/20) = 76 ≥ 75, and its pre-noise base value obeys the
deepest-layer formula and lies in [600, 900). -/
theorem c3_deepest_layer_override_witness :
    values5 envA 0
      = 600 + 300 * envA.u (off_deepest envA + maskCount (is_deepest_layer envA) 0) ∧
    600 ≤ values5 envA 0 ∧ values5 envA 0 < 900 :=
  c3_deepest_layer_override envA 0 envA_draws_unit
    (by norm_num [points_z, envA, uA, nPoints])

/-- Claim C4: boundary split rule.  The per-sample boundary curve
`z_upper(x) = clip(40 + 15·sin(x·π/2.5) + noise(x), 25, 50)` always lies in
[25, 50]; in step 1 a sample with z < z_upper(x) receives base value
800 + 350·U (hard-rock zone) and a sample with z ≥ z_upper(x) receives
450 + 250·U (deep zone), each with a fresh uniform U ∈ [0,1) (app.py
lines 39-44). -/
theorem c4_boundary_split (E : Env) (i : ℕ)
    (hu : ∀ k, 0 ≤ E.u k ∧ E.u k < 1) :
    (25 ≤ boundary_z_upper E i ∧ boundary_z_upper E i ≤ 50) ∧
    (points_z E i < boundary_z_upper E i →
      values2 E i = 800 + 350 * E.u (off_hard + maskCount (is_hard_rock_zone E) i) ∧
      800 ≤ values2 E i ∧ values2 E i < 1150) ∧
    (boundary_z_upper E i ≤ points_z E i →
      values2 E i = 450 + 250 * E.u (off_deep E + maskCount (is_deep_zone E) i) ∧
      450 ≤ values2 E i ∧ values2 E i < 700) := by
  refine ⟨⟨?_, ?_⟩, ?_, ?_⟩
  · unfold boundary_z_upper clipQ
    exact le_min (by norm_num) (le_max_left _ _)
  · unfold boundary_z_upper clipQ
    exact min_le_left _ _
  · intro h
    have hh : is_hard_rock_zone E i = true := by
      simp only [is_hard_rock_zone, decide_eq_true_eq]
      exact h
    have hd : is_deep_zone E i = false := by
      simp only [is_deep_zone, decide_eq_false_iff_not]
      exact not_le.mpr h
    have heq : values2 E i
        = 800 + 350 * E.u (off_hard + maskCount (is_hard_rock_zone E) i) := by
      simp [values2, values1, maskedAssign, hh, hd]
    obtain ⟨h0, h1⟩ := hu (off_hard + maskCount (is_hard_rock_zone E) i)
    refine ⟨heq, ?_, ?_⟩
    · rw [heq]; nlinarith
    · rw [heq]; nlinarith
  · intro h
    have hd : is_deep_zone E i = true := by
      simp only [is_deep_zone, decide_eq_true_eq]
      exact h
    have heq : values2 E i
        = 450 + 250 * E.u (off_deep E + maskCount (is_deep_zone E) i) := by
      simp [values2, maskedAssign, hd]
    obtain ⟨h0, h1⟩ := hu (off_deep E + maskCount (is_deep_zone E) i)
    refine ⟨heq, ?_, ?_⟩
    · rw [heq]; nlinarith
    · rw [heq]; nlinarith

/-- Witness for C4: in `envA`, sample 1 has z = 20 below its boundary value 40
(hard-rock branch) and sample 0 has z = 76 above its boundary value 40 (deep
branch); both base-value formulas and ranges hold, and the boundary value of
sample 1 lies in [25, 50]. -/
theorem c4_boundary_split_witness :
    (25 ≤ boundary_z_upper envA 1 ∧ boundary_z_upper envA 1 ≤ 50) ∧
    (values2 envA 1
        = 800 + 350 * envA.u (off_hard + maskCount (is_hard_rock_zone envA) 1) ∧
      800 ≤ values2 envA 1 ∧ values2 envA 1 < 1150) ∧
    (values2 envA 0
        = 450 + 250 * envA.u (off_deep envA + maskCount (is_deep_zone envA) 0) ∧
      450 ≤ values2 envA 0 ∧ values2 envA 0 < 700) := by
  have h1 := c4_boundary_split envA 1 envA_draws_unit
  have h0 := c4_boundary_split envA 0 envA_draws_unit
  exact ⟨h1.1,
    h1.2.1 (by norm_num [points_z, points_x, boundary_z_upper, clipQ, envA, uA,
      nPoints, min_def, max_def]),
    h0.2.2 (by norm_num [points_z, points_x, boundary_z_upper, clipQ, envA, uA,
      nPoints, min_def, max_def])⟩

/-- Claim C10 (implicit): exhaustive base-value assignment.  For every sample
exactly one of z < z_upper(x) and z ≥ z_upper(x) holds, so after step 1
(app.py lines 41-44) every sample carries one of the two zone base values and
none retains the zero initialisation of line 37. -/
theorem c10_exhaustive_assignment (E : Env) (i : ℕ)
    (hu : ∀ k, 0 ≤ E.u k ∧ E.u k < 1) :
    (is_hard_rock_zone E i = true ∨ is_deep_zone E i = true) ∧
    ¬(is_hard_rock_zone E i = true ∧ is_deep_zone E i = true) ∧
    (values2 E i
        = 800 + 350 * E.u (off_hard + maskCount (is_hard_rock_zone E) i) ∨
      values2 E i
        = 450 + 250 * E.u (off_deep E + maskCount (is_deep_zone E) i)) ∧
    0 < values2 E i := by
  have hsplit := c4_boundary_split E i hu
  rcases lt_or_le (points_z E i) (boundary_z_upper E i) with h | h
  · have hh : is_hard_rock_zone E i = true := by
      simp only [is_hard_rock_zone, decide_eq_true_eq]; exact h
    have hd : is_deep_zone E i = false := by
      simp only [is_deep_zone, decide_eq_false_iff_not]; exact not_le.mpr h
    obtain ⟨heq, hlo, _⟩ := hsplit.2.1 h
    exact ⟨Or.inl hh, fun hc => by rw [hd] at hc; exact Bool.false_ne_true hc.2,
      Or.inl heq, by linarith⟩
  · have hd : is_deep_zone E i = true := by
      simp only [is_deep_zone, decide_eq_true_eq]; exact h
    have hh : is_hard_rock_zone E i = false := by
      simp only [is_hard_rock_zone, decide_eq_false_iff_not]; exact not_lt.mpr h
    obtain ⟨heq, hlo, _⟩ := hsplit.2.2 h
    exact ⟨Or.inr hd, fun hc => by rw [hh] at hc; exact Bool.false_ne_true hc.1,
      Or.inr heq, by linarith⟩

/-- Witness for C10 at `envA`, sample 0: the partition and the positive
assigned value, concretely. -/
theorem c10_exhaustive_assignment_witness :
    (is_hard_rock_zone envA 0 = true ∨ is_deep_zone envA 0 = true) ∧
    ¬(is_hard_rock_zone envA 0 = true ∧ is_deep_zone envA 0 = true) ∧
    (values2 envA 0
        = 800 + 350 * envA.u (off_hard + maskCount (is_hard_rock_zone envA) 0) ∨
      values2 envA 0
        = 450 + 250 * envA.u (off_deep envA + maskCount (is_deep_zone envA) 0)) ∧
    0 < values2 envA 0 :=
  c10_exhaustive_assignment envA 0 envA_draws_unit

/-- Claim C5: degenerate-input handling (interpolator modelled from the
spec).  A sample set that cannot be triangulated — fewer than three distinct
points or an all-collinear cloud — makes `griddata` fail explicitly with
`DegenerateInputError` instead of silently returning an all-undefined grid,
and the caller `generate_pdf` (app.py lines 154-157) surfaces the pipeline
failure as a 500 structured error (with the pipeline recorded as invoked). -/
theorem c5_degenerate_input {J : Type} (core : InterpCore)
    (pts : List (ℚ × ℚ)) (vals : List ℚ) (gu gg : ℕ → ℕ → ℚ)
    (sinf : ℚ → ℚ) (piq : ℚ) (savefig : Output → Except String String)
    (st : NPGlobal) (j : J)
    (h1 : allCollinear pts = true)
    (h2 : allCollinear (pointsList ⟨gu 678, gg 678, sinf, piq⟩) = true) :
    griddata core pts vals = .error .DegenerateInputError ∧
    (generate_pdf gu gg sinf piq core savefig st (.ok j)).1
      = ⟨500, .jsonObj [("error", "Failed to generate plot"),
          ("message", "DegenerateInputError")]⟩ ∧
    (generate_pdf gu gg sinf piq core savefig st (.ok j)).2.1 = true := by
  refine ⟨?_, ?_, ?_⟩
  · simp [griddata, h1]
  · simp [generate_pdf, runPipeline, create_earth_depth_plot, griddata,
      Except.map, h2]
  · simp [generate_pdf, runPipeline, create_earth_depth_plot, griddata,
      Except.map, h2]

set_option maxRecDepth 100000 in
/-- Witness for C5: the two-point sample set [(0,0), (1,1)] (the spec's N=2
direct interpolator unit test) triggers the degenerate failure, and a run
whose 800 samples all coincide (constant uniform stream `uC`) makes the
handler answer 500 after invoking the pipeline. -/
theorem c5_degenerate_input_witness :
    griddata coreConst [((0 : ℚ), (0 : ℚ)), ((1 : ℚ), (1 : ℚ))] []
      = .error .DegenerateInputError ∧
    (generate_pdf genUC genG0 sin0 3 coreConst savefigOk ⟨0, 0⟩ (.ok "body")).1
      = ⟨500, .jsonObj [("error", "Failed to generate plot"),
          ("message", "DegenerateInputError")]⟩ ∧
    (generate_pdf genUC genG0 sin0 3 coreConst savefigOk ⟨0, 0⟩ (.ok "body")).2.1
      = true :=
  c5_degenerate_input coreConst [((0 : ℚ), (0 : ℚ)), ((1 : ℚ), (1 : ℚ))] []
    genUC genG0 sin0 3 savefigOk ⟨0, 0⟩ "body"
    (allCollinear_pair ((0 : ℚ), (0 : ℚ)) ((1 : ℚ), (1 : ℚ))) pointsC_collinear

/-- Claim C7: image-generation interface (entry point modelled from the
spec).  On pipeline success with an encoded raster, the endpoint answers 200
with a JSON object holding exactly one base64-image field; on pipeline
failure it answers a 500 structured error. -/
theorem c7_image_endpoint {J : Type} (gu gg : ℕ → ℕ → ℚ) (sinf : ℚ → ℚ)
    (piq : ℚ) (core : InterpCore) (enc : Output → Except String String)
    (st : NPGlobal) (body : Option J) :
    (∀ e, (runPipeline gu gg sinf piq core st).1.grid = .error e →
      (generate_image gu gg sinf piq core enc st body).1
        = ⟨500, .jsonObj [("error", "Failed to generate plot")]⟩) ∧
    (∀ s, gridOk (runPipeline gu gg sinf piq core st).1 = true →
      enc (runPipeline gu gg sinf piq core st).1 = .ok s →
      (generate_image gu gg sinf piq core enc st body).1
        = ⟨200, .jsonObj [("image", s)]⟩ ∧
      ([("image", s)] : List (String × String)).length = 1) := by
  cases hg : (runPipeline gu gg sinf piq core st).1.grid with
  | error e0 =>
    refine ⟨fun e he => ?_, fun s hok henc => ?_⟩
    · simp only [generate_image]
      rw [hg]
    · simp only [gridOk] at hok
      rw [hg] at hok
      simp at hok
  | ok f =>
    refine ⟨fun e he => absurd he (by simp), fun s hok henc => ?_⟩
    simp only [generate_image]
    rw [hg, henc]
    exact ⟨rfl, rfl⟩

set_option maxRecDepth 100000 in
/-- Witness for C7: with the non-degenerate stream `uB` and a successful
encoder the endpoint answers 200 with the single-field image object; with the
degenerate constant stream `uC` the pipeline fails and it answers 500. -/
theorem c7_image_endpoint_witness :
    (generate_image genUB genG0 sin0 3 coreConst encodeB64Ok ⟨0, 0⟩
        (some "req")).1 = ⟨200, .jsonObj [("image", "iVBORb64")]⟩ ∧
    ([("image", "iVBORb64")] : List (String × String)).length = 1 ∧
    (generate_image genUC genG0 sin0 3 coreConst encodeB64Ok ⟨0, 0⟩
        (some "req")).1
      = ⟨500, .jsonObj [("error", "Failed to generate plot")]⟩ := by
  have h2 := (c7_image_endpoint (J := String) genUB genG0 sin0 3 coreConst
    encodeB64Ok ⟨0, 0⟩ (some "req")).2 "iVBORb64" gridOkB rfl
  have h1 := (c7_image_endpoint (J := String) genUC genG0 sin0 3 coreConst
    encodeB64Ok ⟨0, 0⟩ (some "req")).1 .DegenerateInputError gridErrC
  exact ⟨h2.1, h2.2, h1⟩

end App
